import Mathlib

namespace HeavyMachinery

/-! ## Definitions -/

/-- JavaScript `Math.atan2 y x`, modelled on the reals.  Matches the IEEE
convention on every sign combination (ignoring signed zeros): the angle of the
point `(x, y)` in `(-π, π]`, with `atan2 0 0 = 0`. -/
noncomputable def atan2 (y x : ℝ) : ℝ :=
  if 0 < x then Real.arctan (y / x)
  else if x < 0 ∧ 0 ≤ y then Real.arctan (y / x) + Real.pi
  else if x < 0 ∧ y < 0 then Real.arctan (y / x) - Real.pi
  else if x = 0 ∧ 0 < y then Real.pi / 2
  else if x = 0 ∧ y < 0 then -(Real.pi / 2)
  else 0

/-- A 3-component vector (`CANNON.Vec3`), with real components. -/
structure Vec3 where
  x : ℝ
  y : ℝ
  z : ℝ

namespace Vec3

/-- The zero vector, `Vec3.set(0,0,0)`. -/
def zero : Vec3 := ⟨0, 0, 0⟩

/-- Translation of `CANNON.Vec3.vadd`. -/
def vadd (a b : Vec3) : Vec3 := ⟨a.x + b.x, a.y + b.y, a.z + b.z⟩

/-- Translation of `CANNON.Vec3.vsub`. -/
def vsub (a b : Vec3) : Vec3 := ⟨a.x - b.x, a.y - b.y, a.z - b.z⟩

/-- Translation of `CANNON.Vec3.scale`. -/
def scale (s : ℝ) (a : Vec3) : Vec3 := ⟨s * a.x, s * a.y, s * a.z⟩

/-- Translation of `CANNON.Vec3.dot`. -/
def dot (a b : Vec3) : ℝ := a.x * b.x + a.y * b.y + a.z * b.z

/-- Translation of `CANNON.Vec3.cross`. -/
def cross (a b : Vec3) : Vec3 :=
  ⟨a.y * b.z - a.z * b.y, a.z * b.x - a.x * b.z, a.x * b.y - a.y * b.x⟩

/-- Squared euclidean norm of a vector. -/
def normSq (a : Vec3) : ℝ := a.x * a.x + a.y * a.y + a.z * a.z

/-- Translation of `CANNON.Vec3.length` (`Math.sqrt` of the squared norm). -/
noncomputable def length (a : Vec3) : ℝ := Real.sqrt a.normSq

/-- Translation of `CANNON.Vec3.distanceTo`. -/
noncomputable def distanceTo (a b : Vec3) : ℝ := (b.vsub a).length

end Vec3

/-- A quaternion (`CANNON.Quaternion`), stored as scalar part `w` and vector
part `(x, y, z)`, with real components. -/
structure Quat where
  w : ℝ
  x : ℝ
  y : ℝ
  z : ℝ

namespace Quat

/-- The identity quaternion `(x,y,z,w) = (0,0,0,1)`. -/
def one : Quat := ⟨1, 0, 0, 0⟩

/-- Translation of `CANNON.Quaternion.conjugate` (returns a copy with the vector part
negated; it does not mutate its receiver). -/
def conj (q : Quat) : Quat := ⟨q.w, -q.x, -q.y, -q.z⟩

/-- Translation of `CANNON.Quaternion.mult`: the Hamilton product `p * q`. -/
def mult (p q : Quat) : Quat :=
  ⟨p.w * q.w - p.x * q.x - p.y * q.y - p.z * q.z,
   p.w * q.x + p.x * q.w + p.y * q.z - p.z * q.y,
   p.w * q.y - p.x * q.z + p.y * q.w + p.z * q.x,
   p.w * q.z + p.x * q.y - p.y * q.x + p.z * q.w⟩

/-- Translation of `CANNON.Quaternion.vmult v`: the vector `v` rotated by the quaternion,
computed exactly as in `cannon-es` (`(q * v) * q⁻¹` expanded with the
conjugate in place of the inverse). -/
def vmult (q : Quat) (v : Vec3) : Vec3 :=
  let ix : ℝ := q.w * v.x + q.y * v.z - q.z * v.y
  let iy : ℝ := q.w * v.y + q.z * v.x - q.x * v.z
  let iz : ℝ := q.w * v.z + q.x * v.y - q.y * v.x
  let iw : ℝ := -q.x * v.x - q.y * v.y - q.z * v.z
  ⟨ix * q.w + iw * (-q.x) + iy * (-q.z) - iz * (-q.y),
   iy * q.w + iw * (-q.y) + iz * (-q.x) - ix * (-q.z),
   iz * q.w + iw * (-q.z) + ix * (-q.y) - iy * (-q.x)⟩

/-- Squared norm of a quaternion. -/
def normSq (q : Quat) : ℝ := q.w * q.w + q.x * q.x + q.y * q.y + q.z * q.z

/-- A unit quaternion (a body orientation kept normalized by the engine). -/
def IsUnit (q : Quat) : Prop := q.normSq = 1

end Quat

/-- Clamp idiom `Math.max lo (Math.min hi v)`, the clamp idiom the controllers use. -/
def clampR (lo hi v : ℝ) : ℝ := max lo (min hi v)

namespace PD

/-- Controller constant `kp = 10` of `Excavator.update` (part_004 line 378). -/
def kp : ℝ := 10

/-- Controller constant `kd = 2` of `Excavator.update` (part_004 line 379). -/
def kd : ℝ := 2

/-- Controller constant `maxControlSpeed = 2` (part_004 line 380). -/
def maxControlSpeed : ℝ := 2

/-- Joint drive speed `armSpeed = 1.5` (part_004 line 377). -/
noncomputable def armSpeed : ℝ := 3 / 2

/-- Translation of `Excavator.getHingeAngle(bodyA, bodyB, axisA, axisB)` of part_004
(lines 281–290), translated literally:

* `relQuat = quatA.conjugate().mult(quatB)`;
* `rotatedAxisB = relQuat.vmult(axisB)`;
* `angle = 2 * Math.atan2(rotatedAxisB.length(), relQuat.w)`;
* `sign = (axisA.cross(rotatedAxisB)).dot((1,0,0)) < 0 ? -1 : 1`;
* returns `angle * sign`. -/
noncomputable def getHingeAngle (quatA quatB : Quat) (axisA axisB : Vec3) : ℝ :=
  let relQuat := (quatA.conj).mult quatB
  let rotatedAxisB := relQuat.vmult axisB
  let angle := 2 * atan2 rotatedAxisB.length relQuat.w
  let cross := axisA.cross rotatedAxisB
  let sign : ℝ := if cross.dot ⟨1, 0, 0⟩ < 0 then -1 else 1
  angle * sign

/-- The signed hinge angle as the spec's words describe it (the
"half-angle-from-quaternion method"): the rotation angle is
`2 * atan2(|axis-component of the relative rotation|, scalar part)` — the
magnitude of the vector part of the relative quaternion against its scalar
part — with the sign taken exactly as in the code (cross product of the
nominal axis with the rotated axis, dotted against the fixed reference
direction `(1,0,0)`).  Written only for comparison with `getHingeAngle`. -/
noncomputable def specHingeAngle (quatA quatB : Quat) (axisA axisB : Vec3) : ℝ :=
  let relQuat := (quatA.conj).mult quatB
  let rotatedAxisB := relQuat.vmult axisB
  let vecPartNorm := Real.sqrt (relQuat.x * relQuat.x + relQuat.y * relQuat.y +
    relQuat.z * relQuat.z)
  let angle := 2 * atan2 vecPartNorm relQuat.w
  let cross := axisA.cross rotatedAxisB
  let sign : ℝ := if cross.dot ⟨1, 0, 0⟩ < 0 then -1 else 1
  angle * sign

/-- State of one PD-held joint: `targetXxxAngle` and `previousXxxAngle`
(part_004 lines 11–16), both nullable. -/
structure PDState where
  target : Option ℝ
  prev : Option ℝ

/-- Result of one joint-control block of `Excavator.update`: the PD state left
behind and the motor-speed command issued this tick (`none` when the block
makes no `setMotorSpeed` call, which happens on the first idle tick). -/
structure PDOut where
  state : PDState
  motor : Option ℝ

/-- One per-joint control block of part_004's `Excavator.update`
(boom: lines 446–473; stick: 475–502; bucket: 504–531).  `k1`/`k2` are the two
drive keys of the joint and `s1`/`s2` the motor speeds they command (e.g. boom:
`r ↦ -armSpeed`, `f ↦ +armSpeed`).  `currentAngle` is the angle
`getHingeAngle` returns for the joint's bodies on an idle tick. -/
noncomputable def pdJointStep (k1 k2 : Bool) (s1 s2 : ℝ) (currentAngle : ℝ)
    (st : PDState) : PDOut :=
  if k1 || k2 then
    { state := ⟨none, none⟩
      motor := if k1 then some s1 else some s2 }
  else
    let target := st.target.getD currentAngle
    let motor : Option ℝ :=
      match st.prev with
      | some p =>
        some (clampR (-maxControlSpeed) maxControlSpeed
          (kp * (target - currentAngle) - kd * ((currentAngle - p) / (1 / 60))))
      | none => none
    { state := ⟨some target, some currentAngle⟩, motor }

/-- Keys consumed by the joint-control blocks of part_004
(`this.keys`, lines 20–27; only the joints' drive keys are needed here). -/
structure Keys where
  q : Bool
  e : Bool
  r : Bool
  f : Bool
  t : Bool
  g : Bool
  y : Bool
  h : Bool

/-- The hinge axes of the boom/stick/bucket constraints, all `(1, 0, 0)` in
both local frames (part_004 lines 188–189, 220–221, 268–269). -/
def hingeAxis : Vec3 := ⟨1, 0, 0⟩

/-- The part of the part_004 excavator state read and written by the three
PD joint-control blocks of `Excavator.update`: body orientations (read), the
per-joint PD state, and the last commanded motor speed of each joint
(a `setMotorSpeed` call overwrites it; absent a call it is left alone). -/
structure ArmState where
  keys : Keys
  turretQuat : Quat
  boomQuat : Quat
  stickQuat : Quat
  bucketQuat : Quat
  boomPD : PDState
  stickPD : PDState
  bucketPD : PDState
  boomMotor : ℝ
  stickMotor : ℝ
  bucketMotor : ℝ

/-- The boom control block (part_004 lines 446–473): drive keys `r` (speed
`-armSpeed`) and `f` (speed `+armSpeed`); idle angle
`getHingeAngle(turretBody, boomBody, axisA, axisB)`. -/
noncomputable def boomControl (s : ArmState) : ArmState :=
  let out := pdJointStep s.keys.r s.keys.f (-armSpeed) armSpeed
    (getHingeAngle s.turretQuat s.boomQuat hingeAxis hingeAxis) s.boomPD
  { s with boomPD := out.state, boomMotor := out.motor.getD s.boomMotor }

/-- The stick control block (part_004 lines 475–502): drive keys `g` (speed
`-armSpeed`) and `t` (speed `+armSpeed`); idle angle
`getHingeAngle(boomBody, stickBody, axisA, axisB)`. -/
noncomputable def stickControl (s : ArmState) : ArmState :=
  let out := pdJointStep s.keys.g s.keys.t (-armSpeed) armSpeed
    (getHingeAngle s.boomQuat s.stickQuat hingeAxis hingeAxis) s.stickPD
  { s with stickPD := out.state, stickMotor := out.motor.getD s.stickMotor }

/-- The bucket control block (part_004 lines 504–531): drive keys `y` (speed
`+armSpeed`) and `h` (speed `-armSpeed`); idle angle
`getHingeAngle(stickBody, bucketBody, axisA, axisB)`. -/
noncomputable def bucketControl (s : ArmState) : ArmState :=
  let out := pdJointStep s.keys.y s.keys.h armSpeed (-armSpeed)
    (getHingeAngle s.stickQuat s.bucketQuat hingeAxis hingeAxis) s.bucketPD
  { s with bucketPD := out.state, bucketMotor := out.motor.getD s.bucketMotor }

/-- The three PD joint-control blocks of part_004's `Excavator.update`, in
source order (boom, then stick, then bucket). -/
noncomputable def jointControl (s : ArmState) : ArmState :=
  bucketControl (stickControl (boomControl s))

end PD

open Classical in
/-- Translation of `Excavator.clampHingeAngleAroundX(childBody, parentBody, minAngle,
maxAngle)`: compares the two bodies' world "up" vectors, takes
`acos` of the clamped dot product, signs it by the *z*-component of
`childUpWorld × parentUpWorld`, and zeroes the child's angular velocity when
the signed angle leaves `[minAngle, maxAngle]`. -/
noncomputable def clampHingeAngleAroundX (childQuat parentQuat : Quat)
    (minAngle maxAngle : ℝ) (childAngVel : Vec3) : Vec3 :=
  let childUpWorld := childQuat.vmult ⟨0, 1, 0⟩
  let parentUpWorld := parentQuat.vmult ⟨0, 1, 0⟩
  let d := clampR (-1) 1 (childUpWorld.dot parentUpWorld)
  let angle := Real.arccos d
  let cross := childUpWorld.cross parentUpWorld
  let sign : ℝ := if cross.z < 0 then -1 else 1
  let signedAngle := angle * sign
  if signedAngle < minAngle ∨ signedAngle > maxAngle then Vec3.zero else childAngVel

open Classical in
/-- Translation of `Excavator.clampHingeAngleAroundY(childBody, parentBody, minAngle,
maxAngle)`: same algorithm with the bodies' world "forward" vectors `(0,0,1)`
and the sign taken from the *y*-component of the cross product. -/
noncomputable def clampHingeAngleAroundY (childQuat parentQuat : Quat)
    (minAngle maxAngle : ℝ) (childAngVel : Vec3) : Vec3 :=
  let childFwdWorld := childQuat.vmult ⟨0, 0, 1⟩
  let parentFwdWorld := parentQuat.vmult ⟨0, 0, 1⟩
  let d := clampR (-1) 1 (childFwdWorld.dot parentFwdWorld)
  let angle := Real.arccos d
  let cross := childFwdWorld.cross parentFwdWorld
  let sign : ℝ := if cross.y < 0 then -1 else 1
  let signedAngle := angle * sign
  if signedAngle < minAngle ∨ signedAngle > maxAngle then Vec3.zero else childAngVel

/-- The signed angle `clampHingeAngleAroundX` tests, as the code computes it
(sign from the cross product's z-component). -/
noncomputable def signedAngleAroundX (childQuat parentQuat : Quat) : ℝ :=
  let childUpWorld := childQuat.vmult ⟨0, 1, 0⟩
  let parentUpWorld := parentQuat.vmult ⟨0, 1, 0⟩
  Real.arccos (clampR (-1) 1 (childUpWorld.dot parentUpWorld)) *
    (if (childUpWorld.cross parentUpWorld).z < 0 then -1 else 1)

/-- The signed angle `clampHingeAngleAroundY` tests, as the code computes it
(sign from the cross product's y-component). -/
noncomputable def signedAngleAroundY (childQuat parentQuat : Quat) : ℝ :=
  let childFwdWorld := childQuat.vmult ⟨0, 0, 1⟩
  let parentFwdWorld := parentQuat.vmult ⟨0, 0, 1⟩
  Real.arccos (clampR (-1) 1 (childFwdWorld.dot parentFwdWorld)) *
    (if (childFwdWorld.cross parentFwdWorld).y < 0 then -1 else 1)

open Classical in
/-- The X-axis limiter as the spec's words describe it, written only for
comparison with `clampHingeAngleAroundX`: identical except that the sign is
taken from the cross product's component along the joint's rotation axis —
the x-axis for the elevation (X-hinge) joints — rather than from its
z-component. -/
noncomputable def specClampAroundX (childQuat parentQuat : Quat)
    (minAngle maxAngle : ℝ) (childAngVel : Vec3) : Vec3 :=
  let childUpWorld := childQuat.vmult ⟨0, 1, 0⟩
  let parentUpWorld := parentQuat.vmult ⟨0, 1, 0⟩
  let d := clampR (-1) 1 (childUpWorld.dot parentUpWorld)
  let angle := Real.arccos d
  let cross := childUpWorld.cross parentUpWorld
  let sign : ℝ := if cross.x < 0 then -1 else 1
  let signedAngle := angle * sign
  if signedAngle < minAngle ∨ signedAngle > maxAngle then Vec3.zero else childAngVel

namespace Exc

/-- Key flags `this.keys` of src/src/Excavator.js (lines 14–21). -/
structure Keys where
  w : Bool
  s : Bool
  a : Bool
  d : Bool
  q : Bool
  e : Bool
  r : Bool
  f : Bool
  t : Bool
  g : Bool
  y : Bool
  h : Bool
  space : Bool

/-- All keys up. -/
def Keys.none : Keys :=
  ⟨false, false, false, false, false, false, false,
   false, false, false, false, false, false⟩

/-- One block as the excavator reads and writes it (a `{ instanceId, body,
mesh }` entry from the SandHill pile): the body's pose and velocities, plus
the `localPosition` the pickup stores on the entry (absent before the first
pickup; modelled with a zero default). -/
structure Cube where
  position : Vec3
  quaternion : Quat
  velocity : Vec3
  angularVelocity : Vec3
  localPosition : Vec3

/-- The excavator state `update`/`dig` read and write: key flags, the
locomotion scalar, the chassis body, the arm bodies' orientations and
angular velocities (poses are written by the external physics step and read
here), the four joint motor commands, the block lists, and bookkeeping for
effects that leave the subsystem (forces handed to the solver, render poses,
released blocks, and the motor commands each physics step consumed). -/
structure State where
  keys : Keys
  forwardVelocity : ℝ
  basePosition : Vec3
  baseQuaternion : Quat
  baseVelocity : Vec3
  baseAngularVelocity : Vec3
  turretPosition : Vec3
  turretQuaternion : Quat
  turretAngularVelocity : Vec3
  boomPosition : Vec3
  boomQuaternion : Quat
  boomAngularVelocity : Vec3
  stickPosition : Vec3
  stickQuaternion : Quat
  bucketPosition : Vec3
  bucketQuaternion : Quat
  bucketAngularVelocity : Vec3
  turretMotorSpeed : ℝ
  boomMotorSpeed : ℝ
  stickMotorSpeed : ℝ
  bucketMotorSpeed : ℝ
  appliedForces : List (Vec3 × Vec3)
  cubes : List Cube
  attachedCubes : List Cube
  releasedCubes : List Cube
  meshPoses : List (Vec3 × Quat)
  stepLog : List (ℝ × ℝ × ℝ × ℝ)

/-- Constant `forceMagnitude = 350000` (line 337). -/
def forceMagnitude : ℝ := 350000

/-- Constant `turnSpeed = 2` (line 338). -/
def turnSpeed : ℝ := 2

/-- Constant `damping = 0.95` (line 339). -/
noncomputable def damping : ℝ := 0.95

/-- Constant `armSpeed = 1.5` (line 340). -/
noncomputable def armSpeed : ℝ := 1.5

/-- Constant `this.maxVelocity = 8` (line 25). -/
def maxVelocity : ℝ := 8

/-- Constant `this.acceleration = 0.8` (line 26). -/
noncomputable def acceleration : ℝ := 0.8

/-- Lines 328–335: when none of `w`/`s`/`a`/`d` is held, reset
`forwardVelocity`, the chassis' horizontal velocity, and its yaw angular
velocity to zero before anything else runs. -/
def idleReset (s : State) : State :=
  if !s.keys.w && !s.keys.s && !s.keys.a && !s.keys.d then
    { s with forwardVelocity := 0
             baseVelocity := ⟨0, s.baseVelocity.y, 0⟩
             baseAngularVelocity := ⟨s.baseAngularVelocity.x, 0, s.baseAngularVelocity.z⟩ }
  else s

/-- Lines 345–351: ramp `forwardVelocity` toward `±maxVelocity` by
`acceleration` while `w`/`s` is held, else multiply it by `damping`. -/
noncomputable def rampForwardVelocity (s : State) : State :=
  if s.keys.w then
    { s with forwardVelocity := min (s.forwardVelocity + acceleration) maxVelocity }
  else if s.keys.s then
    { s with forwardVelocity := max (s.forwardVelocity - acceleration) (-maxVelocity) }
  else
    { s with forwardVelocity := s.forwardVelocity * damping }

/-- Lines 342–343 and 353–373: build the per-track forces from
`forwardVelocity`, bias them oppositely (and set the yaw angular velocity
directly) while `a`/`d` is held, and hand both forces to the solver at the
track offset points (`applyForce`). -/
noncomputable def steerAndForces (s : State) : State :=
  let forwardWorld := s.baseQuaternion.vmult ⟨0, 0, -1⟩
  let lt0 := s.forwardVelocity * (forceMagnitude / maxVelocity)
  let rt0 := s.forwardVelocity * (forceMagnitude / maxVelocity)
  let lt1 := if s.keys.a then lt0 - forceMagnitude * 0.4 else lt0
  let rt1 := if s.keys.a then rt0 + forceMagnitude * 0.4 else rt0
  let av1 := if s.keys.a then
      (⟨s.baseAngularVelocity.x, turnSpeed, s.baseAngularVelocity.z⟩ : Vec3)
    else s.baseAngularVelocity
  let lt2 := if s.keys.d then lt1 + forceMagnitude * 0.4 else lt1
  let rt2 := if s.keys.d then rt1 - forceMagnitude * 0.4 else rt1
  let av2 := if s.keys.d then (⟨av1.x, -turnSpeed, av1.z⟩ : Vec3) else av1
  let leftForce := forwardWorld.scale lt2
  let rightForce := forwardWorld.scale rt2
  let leftOffset := s.baseQuaternion.vmult ⟨-0.9, 0, 0⟩
  let rightOffset := s.baseQuaternion.vmult ⟨0.9, 0, 0⟩
  { s with baseAngularVelocity := av2
           appliedForces := s.appliedForces ++
             [(leftForce, s.basePosition.vadd leftOffset),
              (rightForce, s.basePosition.vadd rightOffset)] }

open Classical in
/-- Lines 375–387: clamp the chassis' horizontal speed to `maxVelocity`,
clamp its pitch angular velocity to `±0.3`, and zero its vertical
velocity. -/
noncomputable def clampBaseVelocity (s : State) : State :=
  let velocityMagnitude := Real.sqrt (s.baseVelocity.x ^ 2 + s.baseVelocity.z ^ 2)
  let v1 : Vec3 :=
    if velocityMagnitude > maxVelocity then
      let sc := maxVelocity / velocityMagnitude
      ⟨s.baseVelocity.x * sc, s.baseVelocity.y, s.baseVelocity.z * sc⟩
    else s.baseVelocity
  { s with baseVelocity := ⟨v1.x, 0, v1.z⟩
           baseAngularVelocity :=
             ⟨max (min s.baseAngularVelocity.x 0.3) (-0.3),
              s.baseAngularVelocity.y, s.baseAngularVelocity.z⟩ }

/-- Lines 398–400: turret motor command from `q`/`e`, zero when idle. -/
noncomputable def turretMotor (s : State) : State :=
  if s.keys.q then { s with turretMotorSpeed := -armSpeed }
  else if s.keys.e then { s with turretMotorSpeed := armSpeed }
  else { s with turretMotorSpeed := 0 }

/-- Lines 402–409: boom motor command from `r`/`f`; when neither is held set
the motor speed to `0` and zero the boom body's entire angular velocity. -/
noncomputable def boomMotor (s : State) : State :=
  if s.keys.r then { s with boomMotorSpeed := -armSpeed }
  else if s.keys.f then { s with boomMotorSpeed := armSpeed }
  else { s with boomMotorSpeed := 0, boomAngularVelocity := Vec3.zero }

/-- Lines 411–435: stick motor command from `g`/`t`; when neither is held
run the proportional limiter on the relative angle `2·atan2(relQuat.x,
relQuat.w)`.  The source clones the boom quaternion into `boomInv` and then
calls `boomInv.conjugate();` as a bare statement — `cannon-es`'s
`Quaternion.conjugate(target = new Quaternion())` writes the conjugate into
a fresh target and does not mutate its receiver, so the returned copy is
discarded and `boomInv` stays equal to the boom quaternion: the relative
rotation actually computed is the un-conjugated product
`boomQuat · stickQuat`, modelled as such here. -/
noncomputable def stickMotor (s : State) : State :=
  if s.keys.g then { s with stickMotorSpeed := -armSpeed }
  else if s.keys.t then { s with stickMotorSpeed := armSpeed }
  else
    let boomInv := s.boomQuaternion
    let relQuat := boomInv.mult s.stickQuaternion
    let currentAngle := 2 * atan2 relQuat.x relQuat.w
    let minAngle := -0.0873
    let maxAngle := 0.0873
    let error : ℝ :=
      if currentAngle > maxAngle then currentAngle - maxAngle
      else if currentAngle < minAngle then currentAngle - minAngle
      else 0
    let kP := 0.1
    let correctiveSpeed := if |error| < 0.01 then 0 else -kP * error
    { s with stickMotorSpeed := correctiveSpeed }

/-- Lines 437–444: bucket motor command from `y`/`h`; when neither is held
set the motor speed to `0` and zero the bucket body's angular velocity. -/
noncomputable def bucketMotor (s : State) : State :=
  if s.keys.y then { s with bucketMotorSpeed := armSpeed }
  else if s.keys.h then { s with bucketMotorSpeed := -armSpeed }
  else { s with bucketMotorSpeed := 0, bucketAngularVelocity := Vec3.zero }

/-- Lines 447–449: the manual angle-limit pass (turret about Y within
`[-π, π]`, boom about X within `[-π/4, π/3]`, bucket about X within
`[-π/4, π/2]`). -/
noncomputable def angleLimiter (s : State) : State :=
  { s with
    turretAngularVelocity :=
      clampHingeAngleAroundY s.turretQuaternion s.baseQuaternion
        (-Real.pi) Real.pi s.turretAngularVelocity
    boomAngularVelocity :=
      clampHingeAngleAroundX s.boomQuaternion s.turretQuaternion
        (-(Real.pi / 4)) (Real.pi / 3) s.boomAngularVelocity
    bucketAngularVelocity :=
      clampHingeAngleAroundX s.bucketQuaternion s.stickQuaternion
        (-(Real.pi / 4)) (Real.pi / 2) s.bucketAngularVelocity }

/-- Lines 492–494 of `dig`: capture the cube's position in the bucket's
frame (`localPos = conj(bucketQuat) · (cubePos − bucketPos)`; the source
subtracts with `vsub` and rotates with `applyQuaternion` of the conjugated
bucket quaternion). -/
noncomputable def attachCube (bucketPos : Vec3) (bucketQuat : Quat) (c : Cube) : Cube :=
  { c with localPosition := bucketQuat.conj.vmult (c.position.vsub bucketPos) }

open Classical in
/-- The pickup scan of `dig` (lines 486–499): walk the cube list from its
last element down, and detach the first cube lying strictly within `0.4` of
the bucket position — provided fewer than 20 cubes are attached — from the
free list (`splice`), stopping there (`break`).  The argument list is the
reversed free list; the returned list is the reversed remainder. -/
noncomputable def digScanRev (bucketPos : Vec3) (attachedLen : ℕ) :
    List Cube → Option (List Cube × Cube)
  | [] => Option.none
  | c :: rest =>
    if bucketPos.distanceTo c.position < 0.4 ∧ attachedLen < 20 then
      Option.some (rest, c)
    else
      match digScanRev bucketPos attachedLen rest with
      | Option.some (rest', picked) => Option.some (c :: rest', picked)
      | Option.none => Option.none

/-- Line 502–504 of `dig`: a released cube's velocity and angular velocity
are set to zero (dropped in place). -/
def stopCube (c : Cube) : Cube :=
  { c with velocity := Vec3.zero, angularVelocity := Vec3.zero }

/-- Translation of `Excavator.dig` (lines 484–508): first the pickup scan (possibly moving
one cube from the free list to the attached list, capturing its local
offset), then — if `r` is held and anything is attached — release: zero every
attached cube's velocities and clear the attached list.  Released cubes
remain only in the physics world; the model keeps them in `releasedCubes`
for bookkeeping. -/
noncomputable def dig (s : State) : State :=
  let s1 :=
    match digScanRev s.bucketPosition s.attachedCubes.length s.cubes.reverse with
    | Option.some (restRev, c) =>
      { s with cubes := restRev.reverse
               attachedCubes := s.attachedCubes ++
                 [attachCube s.bucketPosition s.bucketQuaternion c] }
    | Option.none => s
  if s1.keys.r ∧ 0 < s1.attachedCubes.length then
    { s1 with attachedCubes := []
              releasedCubes := s1.releasedCubes ++ s1.attachedCubes.map stopCube }
  else s1

/-- Lines 451–453: `dig` runs only on ticks where `space` is held. -/
noncomputable def digPhase (s : State) : State :=
  if s.keys.space then dig s else s

/-- Lines 456–461 of the carry loop: an attached cube is re-posed to
`bucketPos + bucketQuat · localPosition` with the bucket's orientation; its
velocities are not touched. -/
noncomputable def carryCube (bucketPos : Vec3) (bucketQuat : Quat) (c : Cube) : Cube :=
  { c with position := bucketPos.vadd (bucketQuat.vmult c.localPosition)
           quaternion := bucketQuat }

/-- Lines 455–470: re-pose every attached cube from the bucket's pose (the
instanced-mesh matrix upload is render-only and not modelled). -/
noncomputable def carryPhase (s : State) : State :=
  { s with attachedCubes :=
      s.attachedCubes.map (carryCube s.bucketPosition s.bucketQuaternion) }

/-- Lines 472–481: copy every segment's simulated pose to its render
transform. -/
def visualSync (s : State) : State :=
  { s with meshPoses :=
      [(s.basePosition, s.baseQuaternion),
       (s.turretPosition, s.turretQuaternion),
       (s.boomPosition, s.boomQuaternion),
       (s.stickPosition, s.stickQuaternion),
       (s.bucketPosition, s.bucketQuaternion)] }

/-- Translation of `Excavator.update` (lines 326–482), as the composition of its statement
blocks in source order. -/
noncomputable def update (s : State) : State :=
  visualSync (carryPhase (digPhase (angleLimiter (bucketMotor (stickMotor
    (boomMotor (turretMotor (clampBaseVelocity (steerAndForces
      (rampForwardVelocity (idleReset s)))))))))))

/-- Model of `updatePhysics(world)` of src/src/physics.js (lines 9–11): a single
fixed `world.step(1/60)`.  The solver consumes the joint motor speeds
commanded at the moment of the call; the model records those commands
(turret, boom, stick, bucket) and leaves body state alone, the dynamics
being external to the repository. -/
def worldStep (s : State) : State :=
  { s with stepLog := s.stepLog ++
      [(s.turretMotorSpeed, s.boomMotorSpeed, s.stickMotorSpeed, s.bucketMotorSpeed)] }

/-- One `animate()` frame of src/src/index.js (lines 804–818), restricted to
the excavator subsystem: `updatePhysics(physicsWorld)` runs first, then
`excavator.update()` (the dump truck, snow plow, block, water and camera
updates touch none of the state modelled here). -/
noncomputable def animateTick (s : State) : State :=
  update (worldStep s)

/-- The phase prefix of `update` up to (excluding) the boom-motor block. -/
noncomputable def preBoom (s : State) : State :=
  turretMotor (clampBaseVelocity (steerAndForces (rampForwardVelocity (idleReset s))))

/-- The phase prefix of `update` up to (excluding) the angle-limiter pass. -/
noncomputable def preLimiter (s : State) : State :=
  bucketMotor (stickMotor (boomMotor (preBoom s)))

end Exc

namespace Truck

/-- Key flags `this.keys` of src/src/DumpTruck.js (lines 13–18): the four arrow
keys. -/
structure Keys where
  up : Bool
  down : Bool
  left : Bool
  right : Bool

/-- Key flags `this.tipperKeys` (lines 21–24). -/
structure TipperKeys where
  b : Bool
  n : Bool

/-- The dump-truck state `DumpTruck.update` reads and writes. -/
structure State where
  keys : Keys
  tipperKeys : TipperKeys
  isRotating : Bool
  forwardVelocity : ℝ
  basePosition : Vec3
  baseQuaternion : Quat
  baseVelocity : Vec3
  baseAngularVelocity : Vec3
  tipperRotationX : ℝ
  meshPose : Vec3 × Quat

/-- Constant `this.maxVelocity = 8` (line 28). -/
def maxVelocity : ℝ := 8

/-- Constant `this.acceleration = 0.8` (line 29). -/
noncomputable def acceleration : ℝ := 0.8

/-- Constant `this.angularVelocityDecay = 0.8` (line 33). -/
noncomputable def angularVelocityDecay : ℝ := 0.8

/-- Constant `damping = 0.95` (line 182). -/
noncomputable def damping : ℝ := 0.95

/-- Constant `turnSpeed = 1.5` (line 215). -/
noncomputable def turnSpeed : ℝ := 1.5

/-- Constant `tipSpeed = 0.02` (line 230). -/
noncomputable def tipSpeed : ℝ := 0.02

open Classical in
/-- Translation of `DumpTruck.update` (lines 174–241), assuming the truck is the active
vehicle: ramp or damp (with a snap to zero below `0.1`) the forward-velocity
scalar; decay (with a snap below `0.05`) the yaw angular velocity when not
turning; write the chassis' horizontal velocity directly from the forward
vector scaled by `forwardVelocity` (zero when the scalar is zero); set the
yaw angular velocity directly while turning; zero vertical velocity and
clamp pitch angular velocity to `±0.3`; integrate the tipper angle from
`b`/`n` within `[0, π/6]`; and sync the render pose. -/
noncomputable def update (s : State) : State :=
  let isRotating := s.keys.left || s.keys.right
  let fv1 :=
    if s.keys.up then min (s.forwardVelocity + acceleration) maxVelocity
    else if s.keys.down then max (s.forwardVelocity - acceleration) (-maxVelocity)
    else
      let v := s.forwardVelocity * damping
      if |v| < 0.1 then 0 else v
  let av1 :=
    if !isRotating then
      let vy := s.baseAngularVelocity.y * angularVelocityDecay
      let vy2 := if |vy| < 0.05 then 0 else vy
      (⟨s.baseAngularVelocity.x, vy2, s.baseAngularVelocity.z⟩ : Vec3)
    else s.baseAngularVelocity
  let vel1 : Vec3 :=
    if fv1 ≠ 0 then
      let forwardWorld := s.baseQuaternion.vmult ⟨0, 0, -1⟩
      let velocityVector := forwardWorld.scale fv1
      ⟨velocityVector.x, s.baseVelocity.y, velocityVector.z⟩
    else ⟨0, s.baseVelocity.y, 0⟩
  let av2 : Vec3 :=
    if s.keys.left then ⟨av1.x, turnSpeed, av1.z⟩
    else if s.keys.right then ⟨av1.x, -turnSpeed, av1.z⟩
    else av1
  let vel2 : Vec3 := ⟨vel1.x, 0, vel1.z⟩
  let av3 : Vec3 := ⟨max (min av2.x 0.3) (-0.3), av2.y, av2.z⟩
  let rot1 :=
    if s.tipperKeys.b then min (s.tipperRotationX + tipSpeed) (Real.pi / 6)
    else s.tipperRotationX
  let rot2 := if s.tipperKeys.n then max (rot1 - tipSpeed) 0 else rot1
  { s with isRotating := isRotating
           forwardVelocity := fv1
           baseVelocity := vel2
           baseAngularVelocity := av3
           tipperRotationX := rot2
           meshPose := (s.basePosition, s.baseQuaternion) }

end Truck

/-- A concrete excavator state at rest — identity orientations, zero
velocities and commands, no keys held, empty lists — used as the base point
of the concrete witness states. -/
noncomputable def baseExcState : Exc.State where
  keys := Exc.Keys.none
  forwardVelocity := 0
  basePosition := Vec3.zero
  baseQuaternion := Quat.one
  baseVelocity := Vec3.zero
  baseAngularVelocity := Vec3.zero
  turretPosition := Vec3.zero
  turretQuaternion := Quat.one
  turretAngularVelocity := Vec3.zero
  boomPosition := Vec3.zero
  boomQuaternion := Quat.one
  boomAngularVelocity := Vec3.zero
  stickPosition := Vec3.zero
  stickQuaternion := Quat.one
  bucketPosition := Vec3.zero
  bucketQuaternion := Quat.one
  bucketAngularVelocity := Vec3.zero
  turretMotorSpeed := 0
  boomMotorSpeed := 0
  stickMotorSpeed := 0
  bucketMotorSpeed := 0
  appliedForces := []
  cubes := []
  attachedCubes := []
  releasedCubes := []
  meshPoses := []
  stepLog := []

/-- A concrete dump-truck state at rest. -/
noncomputable def baseTruckState : Truck.State where
  keys := ⟨false, false, false, false⟩
  tipperKeys := ⟨false, false⟩
  isRotating := false
  forwardVelocity := 0
  basePosition := Vec3.zero
  baseQuaternion := Quat.one
  baseVelocity := Vec3.zero
  baseAngularVelocity := Vec3.zero
  tipperRotationX := 0
  meshPose := (Vec3.zero, Quat.one)

/-- A concrete excavator state driving forward (`w` held) at
`forwardVelocity = 1`. -/
noncomputable def c7ExcDriveState : Exc.State :=
  { baseExcState with keys := { Exc.Keys.none with w := true }, forwardVelocity := 1 }

/-- A concrete dump-truck state driving forward (`ArrowUp` held) at
`forwardVelocity = 1`. -/
noncomputable def c7TruckDriveState : Truck.State :=
  { baseTruckState with keys := ⟨true, false, false, false⟩, forwardVelocity := 1 }

/-- A block at the origin at rest. -/
noncomputable def dummyCube : Exc.Cube :=
  ⟨Vec3.zero, Quat.one, Vec3.zero, Vec3.zero, Vec3.zero⟩

/-- A sequence of simulation ticks: between consecutive `Exc.update` calls
the environment (key events, the physics step moving bodies) may rewrite the
state arbitrarily through `f`. -/
noncomputable def runTicks (f : ℕ → Exc.State → Exc.State) :
    ℕ → Exc.State → Exc.State
  | 0, s => s
  | n + 1, s => Exc.update (f n (runTicks f n s))

/-- Twenty attached blocks, `space` and `r` held. -/
noncomputable def c6State : Exc.State :=
  { baseExcState with
    keys := { Exc.Keys.none with space := true, r := true }
    attachedCubes := List.replicate 20 dummyCube }

/-- Twenty attached blocks, `space` held, `r` up. -/
noncomputable def c6CapState : Exc.State :=
  { baseExcState with
    keys := { Exc.Keys.none with space := true }
    attachedCubes := List.replicate 20 dummyCube }

/-- An idle excavator with the boom-down key `r` held and all motor commands
still at `0` from the previous frames. -/
noncomputable def c8State : Exc.State :=
  { baseExcState with keys := { Exc.Keys.none with r := true } }

/-- The squared norm of a `vmult`-rotated vector is the squared quaternion
norm squared, times the squared vector norm (an exact polynomial identity of
the `cannon-es` rotation formula). -/
theorem vmult_normSq (q : Quat) (v : Vec3) :
    (q.vmult v).normSq = q.normSq ^ 2 * v.normSq := by
  simp only [Quat.vmult, Vec3.normSq, Quat.normSq]
  ring

/-- Rotation by a unit quaternion preserves vector length. -/
theorem vmult_length (q : Quat) (v : Vec3) (hq : q.IsUnit) :
    (q.vmult v).length = v.length := by
  have h : q.normSq = 1 := hq
  simp only [Vec3.length, vmult_normSq, h, one_pow, one_mul]

namespace PD

/-- The Hamilton product multiplies squared quaternion norms. -/
theorem normSq_mult (p q : Quat) : (p.mult q).normSq = p.normSq * q.normSq := by
  simp only [Quat.mult, Quat.normSq]
  ring

/-- Conjugation preserves the squared quaternion norm. -/
theorem normSq_conj (q : Quat) : q.conj.normSq = q.normSq := by
  simp only [Quat.conj, Quat.normSq]
  ring

/-- On an idle tick with both PD fields set, the joint block issues the
clamped PD command and rolls the previous angle forward. -/
theorem pdJointStep_idle (s1 s2 c t p : ℝ) :
    pdJointStep false false s1 s2 c ⟨some t, some p⟩ =
      ⟨⟨some t, some c⟩,
        some (clampR (-maxControlSpeed) maxControlSpeed
          (kp * (t - c) - kd * ((c - p) / (1 / 60))))⟩ := by
  simp [pdJointStep]

end PD

open PD in
/-- C1: for every PD-controlled joint (boom, stick, bucket) of the part_004
excavator, on every tick on which neither of the joint's drive keys is held
and both `targetAngle` and `previousAngle` are already set, the joint-control
pass computes `error = targetAngle − currentAngle` and
`angularRate = (currentAngle − previousAngle) / (1/60)`, sets the joint's
motor speed to `kp·error − kd·angularRate` clamped to
`[−maxControlSpeed, maxControlSpeed]` (`kp = 10`, `kd = 2`,
`maxControlSpeed = 2`), and updates `previousAngle` to `currentAngle`
(leaving `targetAngle` unchanged). -/
theorem C1_pd_idle_step (s : PD.ArmState) :
    (∀ t p : ℝ, s.keys.r = false → s.keys.f = false →
      s.boomPD = ⟨some t, some p⟩ →
      (jointControl s).boomMotor =
        clampR (-maxControlSpeed) maxControlSpeed
          (kp * (t - getHingeAngle s.turretQuat s.boomQuat hingeAxis hingeAxis)
            - kd * ((getHingeAngle s.turretQuat s.boomQuat hingeAxis hingeAxis - p)
              / (1 / 60))) ∧
      (jointControl s).boomPD =
        ⟨some t, some (getHingeAngle s.turretQuat s.boomQuat hingeAxis hingeAxis)⟩) ∧
    (∀ t p : ℝ, s.keys.g = false → s.keys.t = false →
      s.stickPD = ⟨some t, some p⟩ →
      (jointControl s).stickMotor =
        clampR (-maxControlSpeed) maxControlSpeed
          (kp * (t - getHingeAngle s.boomQuat s.stickQuat hingeAxis hingeAxis)
            - kd * ((getHingeAngle s.boomQuat s.stickQuat hingeAxis hingeAxis - p)
              / (1 / 60))) ∧
      (jointControl s).stickPD =
        ⟨some t, some (getHingeAngle s.boomQuat s.stickQuat hingeAxis hingeAxis)⟩) ∧
    (∀ t p : ℝ, s.keys.y = false → s.keys.h = false →
      s.bucketPD = ⟨some t, some p⟩ →
      (jointControl s).bucketMotor =
        clampR (-maxControlSpeed) maxControlSpeed
          (kp * (t - getHingeAngle s.stickQuat s.bucketQuat hingeAxis hingeAxis)
            - kd * ((getHingeAngle s.stickQuat s.bucketQuat hingeAxis hingeAxis - p)
              / (1 / 60))) ∧
      (jointControl s).bucketPD =
        ⟨some t, some (getHingeAngle s.stickQuat s.bucketQuat hingeAxis hingeAxis)⟩) := by
  refine ⟨fun t p hr hf hpd => ?_, fun t p hg ht hpd => ?_, fun t p hy hh hpd => ?_⟩
  · simp [jointControl, boomControl, stickControl, bucketControl, hr, hf, hpd,
      pdJointStep_idle]
  · simp [jointControl, boomControl, stickControl, bucketControl, hg, ht, hpd,
      pdJointStep_idle]
  · simp [jointControl, boomControl, stickControl, bucketControl, hy, hh, hpd,
      pdJointStep_idle]

open PD in
/-- C1 witness: a concrete all-idle state with the boom PD state
`(target, previous) = (π/2, π/2)`; the idle angle of identity orientations
evaluates to `π/2`, so the commanded boom motor speed is the clamp of
`10·0 − 2·0 = 0`. -/
theorem C1_pd_idle_step_witness :
    (jointControl
      { keys := ⟨false, false, false, false, false, false, false, false⟩
        turretQuat := Quat.one, boomQuat := Quat.one
        stickQuat := Quat.one, bucketQuat := Quat.one
        boomPD := ⟨some (Real.pi / 2), some (Real.pi / 2)⟩
        stickPD := ⟨none, none⟩, bucketPD := ⟨none, none⟩
        boomMotor := 0, stickMotor := 0, bucketMotor := 0 }).boomMotor = 0 := by
  have hangle : getHingeAngle Quat.one Quat.one hingeAxis hingeAxis = Real.pi / 2 := by
    simp only [getHingeAngle, Quat.one, Quat.conj, Quat.mult, Quat.vmult, hingeAxis,
      Vec3.length, Vec3.normSq, Vec3.cross, Vec3.dot, atan2]
    norm_num [Real.sqrt_one, Real.arctan_one]
    ring
  have h := (C1_pd_idle_step
    { keys := ⟨false, false, false, false, false, false, false, false⟩
      turretQuat := Quat.one, boomQuat := Quat.one
      stickQuat := Quat.one, bucketQuat := Quat.one
      boomPD := ⟨some (Real.pi / 2), some (Real.pi / 2)⟩
      stickPD := ⟨none, none⟩, bucketPD := ⟨none, none⟩
      boomMotor := 0, stickMotor := 0, bucketMotor := 0 }).1
    (Real.pi / 2) (Real.pi / 2) rfl rfl rfl
  rw [h.1]
  norm_num [hangle, clampR, kp, kd, maxControlSpeed]

open PD in
/-- C2 counterexample: with `bodyA` at the identity orientation, `bodyB`
rotated about the x-axis by the rational unit quaternion `(w,x) = (4/5, 3/5)`,
and both hinge axes `(1,0,0)`, the spec's half-angle formula
(`2·atan2(|vector part|, w)`, with the code's sign) yields `2·arctan(3/4)`
while `getHingeAngle` yields `2·arctan(5/4)`: the code takes `atan2` of the
length of the *rotated axis* (always `1` for unit inputs), not of the vector
part of the relative rotation, so the claimed formula disagrees with the
code. -/
theorem C2_hinge_angle_counterexample :
    specHingeAngle Quat.one ⟨4/5, 3/5, 0, 0⟩ hingeAxis hingeAxis ≠
      getHingeAngle Quat.one ⟨4/5, 3/5, 0, 0⟩ hingeAxis hingeAxis := by
  have hspec : specHingeAngle Quat.one ⟨4/5, 3/5, 0, 0⟩ hingeAxis hingeAxis =
      2 * Real.arctan (3/4) := by
    simp only [specHingeAngle, Quat.one, Quat.conj, Quat.mult, Quat.vmult, hingeAxis,
      Vec3.cross, Vec3.dot, atan2]
    norm_num
    rw [show (9:ℝ) = 3^2 by norm_num, show (25:ℝ) = 5^2 by norm_num,
      Real.sqrt_sq (by norm_num : (0:ℝ) ≤ 3), Real.sqrt_sq (by norm_num : (0:ℝ) ≤ 5)]
    norm_num
  have hcode : getHingeAngle Quat.one ⟨4/5, 3/5, 0, 0⟩ hingeAxis hingeAxis =
      2 * Real.arctan (5/4) := by
    simp only [getHingeAngle, Quat.one, Quat.conj, Quat.mult, Quat.vmult, hingeAxis,
      Vec3.length, Vec3.normSq, Vec3.cross, Vec3.dot, atan2]
    norm_num [Real.sqrt_one]
  rw [hspec, hcode]
  have h : Real.arctan (3/4) < Real.arctan (5/4) :=
    Real.arctan_strictMono (by norm_num)
  intro hc
  nlinarith [h]

open PD in
/-- C2 amended: on every idle tick, the joint controller computes the signed
relative angle by composing the parent orientation's inverse (conjugate) with
the child orientation, rotating the child-local hinge axis by that relative
rotation, and evaluating `2·atan2(‖rotated axis‖, scalar part)` — for unit
orientations and a unit hinge axis the first argument is the constant `1`,
not the vector-part magnitude of the relative rotation — with the sign taken
from the cross product of the nominal axis and the rotated axis dotted
against the fixed reference direction `(1,0,0)`. -/
theorem C2_hinge_angle_amended (quatA quatB : Quat) (axisA axisB : Vec3)
    (hA : quatA.IsUnit) (hB : quatB.IsUnit) (haxis : axisB.normSq = 1) :
    getHingeAngle quatA quatB axisA axisB =
      2 * atan2 1 ((quatA.conj.mult quatB).w) *
        (if (axisA.cross ((quatA.conj.mult quatB).vmult axisB)).dot ⟨1, 0, 0⟩ < 0
          then -1 else 1) := by
  have hrel : (quatA.conj.mult quatB).IsUnit := by
    have := normSq_mult quatA.conj quatB
    have hc := normSq_conj quatA
    simp only [Quat.IsUnit] at hA hB ⊢
    rw [this, hc, hA, hB, one_mul]
  have hlen : ((quatA.conj.mult quatB).vmult axisB).length = 1 := by
    rw [vmult_length _ _ hrel]
    simp [Vec3.length, haxis]
  simp only [getHingeAngle, hlen]

open PD in
/-- C2 amended witness: at `bodyA` the identity, `bodyB` the unit quaternion
`(w,x) = (4/5, 3/5)` and hinge axes `(1,0,0)`, the amended formula evaluates
to `2·atan2(1, 4/5)` with positive sign. -/
theorem C2_hinge_angle_witness :
    getHingeAngle Quat.one ⟨4/5, 3/5, 0, 0⟩ hingeAxis hingeAxis =
      2 * atan2 1 (4/5) := by
  have h := C2_hinge_angle_amended Quat.one ⟨4/5, 3/5, 0, 0⟩ hingeAxis hingeAxis
    (by norm_num [Quat.IsUnit, Quat.normSq, Quat.one])
    (by norm_num [Quat.IsUnit, Quat.normSq])
    (by norm_num [Vec3.normSq, hingeAxis])
  rw [h]
  norm_num [Quat.one, Quat.conj, Quat.mult, Quat.vmult, hingeAxis, Vec3.cross, Vec3.dot]

/-- A guarded if-then-else hitting the zero vector does so exactly when its
condition holds, provided the pass-through value is nonzero. -/
theorem ite_zero_iff (c : Prop) [Decidable c] (ω : Vec3) (hω : ω ≠ Vec3.zero) :
    (if c then Vec3.zero else ω) = Vec3.zero ↔ c := by
  split <;> simp_all

/-- C3 counterexample: take the child rotated about the hinge (x-)axis by the
unit quaternion `(w,x) = (4/5, 3/5)` relative to an identity parent — the
cross product of the up-vectors is `(-24/25, 0, 0)`, pointing along the
rotation axis — with the bucket joint's limits `[-π/4, π/2]` and angular
velocity `(1,2,3)`.  The code's limiter signs by the cross product's
z-component (here `0`), reads the angle as `+arccos(7/25) ∈ [-π/4, π/2]` and
leaves the velocity alone; signing by the component along the joint's
rotation axis, as the claim states, gives `-arccos(7/25) < -π/4` and would
zero it. -/
theorem C3_angle_limiter_counterexample :
    clampHingeAngleAroundX ⟨4/5, 3/5, 0, 0⟩ Quat.one (-(Real.pi/4)) (Real.pi/2) ⟨1, 2, 3⟩ ≠
      specClampAroundX ⟨4/5, 3/5, 0, 0⟩ Quat.one (-(Real.pi/4)) (Real.pi/2) ⟨1, 2, 3⟩ := by
  have hchild : Quat.vmult ⟨4/5, 3/5, 0, 0⟩ ⟨0, 1, 0⟩ = ⟨0, 7/25, 24/25⟩ := by
    simp only [Quat.vmult]
    norm_num
  have hparent : Quat.one.vmult ⟨0, 1, 0⟩ = ⟨0, 1, 0⟩ := by
    simp only [Quat.one, Quat.vmult]
    norm_num
  have hdot : (Vec3.dot ⟨0, 7/25, 24/25⟩ ⟨0, 1, 0⟩) = 7/25 := by
    simp [Vec3.dot]
  have hclamp : clampR (-1) 1 (7/25 : ℝ) = 7/25 := by
    norm_num [clampR]
  have hcross : (Vec3.cross ⟨0, 7/25, 24/25⟩ ⟨0, 1, 0⟩) = ⟨-(24/25), 0, 0⟩ := by
    simp only [Vec3.cross]
    norm_num
  have hbound₁ : (0:ℝ) ≤ Real.arccos (7/25) := Real.arccos_nonneg _
  have hbound₂ : Real.arccos (7/25) ≤ Real.pi / 2 :=
    Real.arccos_le_pi_div_two.mpr (by norm_num)
  have hgt : Real.arccos (7/25) > Real.pi / 4 := by
    by_contra hle
    push_neg at hle
    have hcos : Real.cos (Real.pi/4) ≤ Real.cos (Real.arccos (7/25)) :=
      Real.cos_le_cos_of_nonneg_of_le_pi (Real.arccos_nonneg _)
        (by linarith [Real.pi_pos]) hle
    rw [Real.cos_arccos (by norm_num) (by norm_num), Real.cos_pi_div_four] at hcos
    have hs : (14/25 : ℝ) < Real.sqrt 2 := by
      rw [Real.lt_sqrt (by norm_num)]
      norm_num
    linarith
  have hpi : (0:ℝ) < Real.pi := Real.pi_pos
  simp only [clampHingeAngleAroundX, specClampAroundX, hchild, hparent, hdot, hclamp,
    hcross]
  norm_num
  rw [if_neg (by push_neg; constructor <;> nlinarith), if_pos (by left; nlinarith)]
  intro hc
  have := congrArg Vec3.x hc
  norm_num [Vec3.zero] at this

/-- C3 amended: for every limited joint on every tick, the limiter rotates
each body's fixed local reference direction (local up `(0,1,0)` for the
X-hinge elevation joints, local forward `(0,0,1)` for the Y-hinge yaw joint)
into world space, computes the angle between them as `acos` of the dot
product clamped to `[-1, 1]`, signs it by the cross product's *z*-component
for the X-hinge limiter and *y*-component for the Y-hinge limiter (not, in
the X case, by the component along the joint's rotation axis), and zeroes all
three components of the child's angular velocity exactly when the signed
angle lies outside `[min, max]`. -/
theorem C3_angle_limiter_amended (cq pq : Quat) (mn mx : ℝ) (ω : Vec3)
    (hω : ω ≠ Vec3.zero) :
    (clampHingeAngleAroundX cq pq mn mx ω = Vec3.zero ↔
      signedAngleAroundX cq pq < mn ∨ signedAngleAroundX cq pq > mx) ∧
    (clampHingeAngleAroundY cq pq mn mx ω = Vec3.zero ↔
      signedAngleAroundY cq pq < mn ∨ signedAngleAroundY cq pq > mx) ∧
    signedAngleAroundX cq pq =
      Real.arccos (clampR (-1) 1 ((cq.vmult ⟨0, 1, 0⟩).dot (pq.vmult ⟨0, 1, 0⟩))) *
        (if ((cq.vmult ⟨0, 1, 0⟩).cross (pq.vmult ⟨0, 1, 0⟩)).z < 0 then -1 else 1) ∧
    signedAngleAroundY cq pq =
      Real.arccos (clampR (-1) 1 ((cq.vmult ⟨0, 0, 1⟩).dot (pq.vmult ⟨0, 0, 1⟩))) *
        (if ((cq.vmult ⟨0, 0, 1⟩).cross (pq.vmult ⟨0, 0, 1⟩)).y < 0 then -1 else 1) := by
  refine ⟨?_, ?_, rfl, rfl⟩
  · exact ite_zero_iff _ ω hω
  · exact ite_zero_iff _ ω hω

/-- C3 amended witness: identity orientations with the turret joint's limits
`[-π, π]` and a nonzero angular velocity — the signed angle evaluates to `0`,
inside the limits, so the velocity is left untouched. -/
theorem C3_angle_limiter_witness :
    clampHingeAngleAroundY Quat.one Quat.one (-Real.pi) Real.pi ⟨1, 0, 0⟩ ≠ Vec3.zero := by
  have h := (C3_angle_limiter_amended Quat.one Quat.one (-Real.pi) Real.pi ⟨1, 0, 0⟩
    (by simp [Vec3.zero])).2.1
  intro hc
  have hout := h.mp hc
  have hy : signedAngleAroundY Quat.one Quat.one = 0 := by
    simp only [signedAngleAroundY, Quat.one, Quat.vmult, Vec3.dot, Vec3.cross]
    norm_num [clampR, Real.arccos_one]
  rw [hy] at hout
  have hpi : (0:ℝ) < Real.pi := Real.pi_pos
  rcases hout with h1 | h1 <;> linarith

namespace Exc

/-- Fields `idleReset` leaves alone. -/
theorem idleReset_frame (s : State) :
    (idleReset s).keys = s.keys ∧ (idleReset s).cubes = s.cubes ∧
    (idleReset s).attachedCubes = s.attachedCubes ∧
    (idleReset s).bucketPosition = s.bucketPosition ∧
    (idleReset s).bucketQuaternion = s.bucketQuaternion ∧
    (idleReset s).boomMotorSpeed = s.boomMotorSpeed ∧
    (idleReset s).boomAngularVelocity = s.boomAngularVelocity ∧
    (idleReset s).bucketMotorSpeed = s.bucketMotorSpeed ∧
    (idleReset s).bucketAngularVelocity = s.bucketAngularVelocity ∧
    (idleReset s).turretMotorSpeed = s.turretMotorSpeed ∧
    (idleReset s).stickMotorSpeed = s.stickMotorSpeed ∧
    (idleReset s).stepLog = s.stepLog := by
  unfold idleReset
  split_ifs <;> simp

/-- Fields `rampForwardVelocity` leaves alone. -/
theorem ramp_frame (s : State) :
    (rampForwardVelocity s).keys = s.keys ∧
    (rampForwardVelocity s).cubes = s.cubes ∧
    (rampForwardVelocity s).attachedCubes = s.attachedCubes ∧
    (rampForwardVelocity s).bucketPosition = s.bucketPosition ∧
    (rampForwardVelocity s).bucketQuaternion = s.bucketQuaternion ∧
    (rampForwardVelocity s).boomMotorSpeed = s.boomMotorSpeed ∧
    (rampForwardVelocity s).boomAngularVelocity = s.boomAngularVelocity ∧
    (rampForwardVelocity s).bucketMotorSpeed = s.bucketMotorSpeed ∧
    (rampForwardVelocity s).bucketAngularVelocity = s.bucketAngularVelocity ∧
    (rampForwardVelocity s).turretMotorSpeed = s.turretMotorSpeed ∧
    (rampForwardVelocity s).stickMotorSpeed = s.stickMotorSpeed ∧
    (rampForwardVelocity s).stepLog = s.stepLog := by
  unfold rampForwardVelocity
  split_ifs <;> simp

/-- Fields `steerAndForces` leaves alone. -/
theorem steer_frame (s : State) :
    (steerAndForces s).keys = s.keys ∧
    (steerAndForces s).forwardVelocity = s.forwardVelocity ∧
    (steerAndForces s).cubes = s.cubes ∧
    (steerAndForces s).attachedCubes = s.attachedCubes ∧
    (steerAndForces s).bucketPosition = s.bucketPosition ∧
    (steerAndForces s).bucketQuaternion = s.bucketQuaternion ∧
    (steerAndForces s).boomMotorSpeed = s.boomMotorSpeed ∧
    (steerAndForces s).boomAngularVelocity = s.boomAngularVelocity ∧
    (steerAndForces s).bucketMotorSpeed = s.bucketMotorSpeed ∧
    (steerAndForces s).bucketAngularVelocity = s.bucketAngularVelocity ∧
    (steerAndForces s).turretMotorSpeed = s.turretMotorSpeed ∧
    (steerAndForces s).stickMotorSpeed = s.stickMotorSpeed ∧
    (steerAndForces s).stepLog = s.stepLog := by
  unfold steerAndForces
  simp

/-- Fields `clampBaseVelocity` leaves alone. -/
theorem clampBase_frame (s : State) :
    (clampBaseVelocity s).keys = s.keys ∧
    (clampBaseVelocity s).forwardVelocity = s.forwardVelocity ∧
    (clampBaseVelocity s).cubes = s.cubes ∧
    (clampBaseVelocity s).attachedCubes = s.attachedCubes ∧
    (clampBaseVelocity s).bucketPosition = s.bucketPosition ∧
    (clampBaseVelocity s).bucketQuaternion = s.bucketQuaternion ∧
    (clampBaseVelocity s).boomMotorSpeed = s.boomMotorSpeed ∧
    (clampBaseVelocity s).boomAngularVelocity = s.boomAngularVelocity ∧
    (clampBaseVelocity s).bucketMotorSpeed = s.bucketMotorSpeed ∧
    (clampBaseVelocity s).bucketAngularVelocity = s.bucketAngularVelocity ∧
    (clampBaseVelocity s).turretMotorSpeed = s.turretMotorSpeed ∧
    (clampBaseVelocity s).stickMotorSpeed = s.stickMotorSpeed ∧
    (clampBaseVelocity s).stepLog = s.stepLog := by
  unfold clampBaseVelocity
  simp

/-- Fields `turretMotor` leaves alone. -/
theorem turretMotor_frame (s : State) :
    (turretMotor s).keys = s.keys ∧
    (turretMotor s).forwardVelocity = s.forwardVelocity ∧
    (turretMotor s).cubes = s.cubes ∧
    (turretMotor s).attachedCubes = s.attachedCubes ∧
    (turretMotor s).bucketPosition = s.bucketPosition ∧
    (turretMotor s).bucketQuaternion = s.bucketQuaternion ∧
    (turretMotor s).boomMotorSpeed = s.boomMotorSpeed ∧
    (turretMotor s).boomAngularVelocity = s.boomAngularVelocity ∧
    (turretMotor s).bucketMotorSpeed = s.bucketMotorSpeed ∧
    (turretMotor s).bucketAngularVelocity = s.bucketAngularVelocity ∧
    (turretMotor s).stickMotorSpeed = s.stickMotorSpeed ∧
    (turretMotor s).stepLog = s.stepLog := by
  unfold turretMotor
  split_ifs <;> simp

/-- Fields `boomMotor` leaves alone. -/
theorem boomMotor_frame (s : State) :
    (boomMotor s).keys = s.keys ∧
    (boomMotor s).forwardVelocity = s.forwardVelocity ∧
    (boomMotor s).cubes = s.cubes ∧
    (boomMotor s).attachedCubes = s.attachedCubes ∧
    (boomMotor s).bucketPosition = s.bucketPosition ∧
    (boomMotor s).bucketQuaternion = s.bucketQuaternion ∧
    (boomMotor s).bucketMotorSpeed = s.bucketMotorSpeed ∧
    (boomMotor s).bucketAngularVelocity = s.bucketAngularVelocity ∧
    (boomMotor s).turretMotorSpeed = s.turretMotorSpeed ∧
    (boomMotor s).stickMotorSpeed = s.stickMotorSpeed ∧
    (boomMotor s).stepLog = s.stepLog := by
  unfold boomMotor
  split_ifs <;> simp

/-- Fields `stickMotor` leaves alone. -/
theorem stickMotor_frame (s : State) :
    (stickMotor s).keys = s.keys ∧
    (stickMotor s).forwardVelocity = s.forwardVelocity ∧
    (stickMotor s).cubes = s.cubes ∧
    (stickMotor s).attachedCubes = s.attachedCubes ∧
    (stickMotor s).bucketPosition = s.bucketPosition ∧
    (stickMotor s).bucketQuaternion = s.bucketQuaternion ∧
    (stickMotor s).boomMotorSpeed = s.boomMotorSpeed ∧
    (stickMotor s).boomAngularVelocity = s.boomAngularVelocity ∧
    (stickMotor s).bucketMotorSpeed = s.bucketMotorSpeed ∧
    (stickMotor s).bucketAngularVelocity = s.bucketAngularVelocity ∧
    (stickMotor s).turretMotorSpeed = s.turretMotorSpeed ∧
    (stickMotor s).stepLog = s.stepLog := by
  unfold stickMotor
  split_ifs <;> simp

/-- Fields `bucketMotor` leaves alone. -/
theorem bucketMotor_frame (s : State) :
    (bucketMotor s).keys = s.keys ∧
    (bucketMotor s).forwardVelocity = s.forwardVelocity ∧
    (bucketMotor s).cubes = s.cubes ∧
    (bucketMotor s).attachedCubes = s.attachedCubes ∧
    (bucketMotor s).bucketPosition = s.bucketPosition ∧
    (bucketMotor s).bucketQuaternion = s.bucketQuaternion ∧
    (bucketMotor s).boomMotorSpeed = s.boomMotorSpeed ∧
    (bucketMotor s).boomAngularVelocity = s.boomAngularVelocity ∧
    (bucketMotor s).turretMotorSpeed = s.turretMotorSpeed ∧
    (bucketMotor s).stickMotorSpeed = s.stickMotorSpeed ∧
    (bucketMotor s).stepLog = s.stepLog := by
  unfold bucketMotor
  split_ifs <;> simp

/-- Fields `angleLimiter` leaves alone. -/
theorem angleLimiter_frame (s : State) :
    (angleLimiter s).keys = s.keys ∧
    (angleLimiter s).forwardVelocity = s.forwardVelocity ∧
    (angleLimiter s).cubes = s.cubes ∧
    (angleLimiter s).attachedCubes = s.attachedCubes ∧
    (angleLimiter s).bucketPosition = s.bucketPosition ∧
    (angleLimiter s).bucketQuaternion = s.bucketQuaternion ∧
    (angleLimiter s).boomMotorSpeed = s.boomMotorSpeed ∧
    (angleLimiter s).bucketMotorSpeed = s.bucketMotorSpeed ∧
    (angleLimiter s).turretMotorSpeed = s.turretMotorSpeed ∧
    (angleLimiter s).stickMotorSpeed = s.stickMotorSpeed ∧
    (angleLimiter s).stepLog = s.stepLog := by
  unfold angleLimiter
  simp

/-- Fields `dig` leaves alone (both the pickup and the release branch only
touch the cube lists). -/
theorem dig_frame (s : State) :
    (dig s).keys = s.keys ∧
    (dig s).forwardVelocity = s.forwardVelocity ∧
    (dig s).bucketPosition = s.bucketPosition ∧
    (dig s).bucketQuaternion = s.bucketQuaternion ∧
    (dig s).boomMotorSpeed = s.boomMotorSpeed ∧
    (dig s).boomAngularVelocity = s.boomAngularVelocity ∧
    (dig s).bucketMotorSpeed = s.bucketMotorSpeed ∧
    (dig s).bucketAngularVelocity = s.bucketAngularVelocity ∧
    (dig s).turretMotorSpeed = s.turretMotorSpeed ∧
    (dig s).stickMotorSpeed = s.stickMotorSpeed ∧
    (dig s).stepLog = s.stepLog := by
  unfold dig
  rcases h : digScanRev s.bucketPosition s.attachedCubes.length s.cubes.reverse with
    _ | ⟨rest, c⟩ <;> simp only [h] <;> split_ifs <;> simp

/-- Fields `digPhase` leaves alone. -/
theorem digPhase_frame (s : State) :
    (digPhase s).keys = s.keys ∧
    (digPhase s).forwardVelocity = s.forwardVelocity ∧
    (digPhase s).bucketPosition = s.bucketPosition ∧
    (digPhase s).bucketQuaternion = s.bucketQuaternion ∧
    (digPhase s).boomMotorSpeed = s.boomMotorSpeed ∧
    (digPhase s).boomAngularVelocity = s.boomAngularVelocity ∧
    (digPhase s).bucketMotorSpeed = s.bucketMotorSpeed ∧
    (digPhase s).bucketAngularVelocity = s.bucketAngularVelocity ∧
    (digPhase s).turretMotorSpeed = s.turretMotorSpeed ∧
    (digPhase s).stickMotorSpeed = s.stickMotorSpeed ∧
    (digPhase s).stepLog = s.stepLog := by
  unfold digPhase
  split_ifs with h
  · exact dig_frame s
  · simp

/-- Fields `carryPhase` leaves alone. -/
theorem carry_frame (s : State) :
    (carryPhase s).keys = s.keys ∧
    (carryPhase s).forwardVelocity = s.forwardVelocity ∧
    (carryPhase s).cubes = s.cubes ∧
    (carryPhase s).bucketPosition = s.bucketPosition ∧
    (carryPhase s).bucketQuaternion = s.bucketQuaternion ∧
    (carryPhase s).boomMotorSpeed = s.boomMotorSpeed ∧
    (carryPhase s).boomAngularVelocity = s.boomAngularVelocity ∧
    (carryPhase s).bucketMotorSpeed = s.bucketMotorSpeed ∧
    (carryPhase s).bucketAngularVelocity = s.bucketAngularVelocity ∧
    (carryPhase s).turretMotorSpeed = s.turretMotorSpeed ∧
    (carryPhase s).stickMotorSpeed = s.stickMotorSpeed ∧
    (carryPhase s).stepLog = s.stepLog := by
  unfold carryPhase
  simp

/-- Fields `visualSync` leaves alone. -/
theorem visualSync_frame (s : State) :
    (visualSync s).keys = s.keys ∧
    (visualSync s).forwardVelocity = s.forwardVelocity ∧
    (visualSync s).cubes = s.cubes ∧
    (visualSync s).attachedCubes = s.attachedCubes ∧
    (visualSync s).bucketPosition = s.bucketPosition ∧
    (visualSync s).bucketQuaternion = s.bucketQuaternion ∧
    (visualSync s).boomMotorSpeed = s.boomMotorSpeed ∧
    (visualSync s).boomAngularVelocity = s.boomAngularVelocity ∧
    (visualSync s).bucketMotorSpeed = s.bucketMotorSpeed ∧
    (visualSync s).bucketAngularVelocity = s.bucketAngularVelocity ∧
    (visualSync s).turretMotorSpeed = s.turretMotorSpeed ∧
    (visualSync s).stickMotorSpeed = s.stickMotorSpeed ∧
    (visualSync s).stepLog = s.stepLog := by
  unfold visualSync
  simp

/-- Fields `worldStep` leaves alone (everything except the step log). -/
theorem worldStep_frame (s : State) :
    (worldStep s).keys = s.keys ∧
    (worldStep s).forwardVelocity = s.forwardVelocity ∧
    (worldStep s).cubes = s.cubes ∧
    (worldStep s).attachedCubes = s.attachedCubes ∧
    (worldStep s).bucketPosition = s.bucketPosition ∧
    (worldStep s).bucketQuaternion = s.bucketQuaternion ∧
    (worldStep s).boomMotorSpeed = s.boomMotorSpeed ∧
    (worldStep s).boomAngularVelocity = s.boomAngularVelocity ∧
    (worldStep s).bucketMotorSpeed = s.bucketMotorSpeed ∧
    (worldStep s).bucketAngularVelocity = s.bucketAngularVelocity ∧
    (worldStep s).turretMotorSpeed = s.turretMotorSpeed ∧
    (worldStep s).stickMotorSpeed = s.stickMotorSpeed := by
  unfold worldStep
  simp

/-- Factoring of `update` through the named prefixes (definitional). -/
theorem update_factor (s : State) :
    update s = visualSync (carryPhase (digPhase (angleLimiter (preLimiter s)))) := rfl

/-- The prefix before the boom-motor block leaves the keys, the cube lists,
the bucket pose, the arm motor commands and angular velocities, and the step
log alone. -/
theorem preBoom_frame (s : State) :
    (preBoom s).keys = s.keys ∧
    (preBoom s).cubes = s.cubes ∧
    (preBoom s).attachedCubes = s.attachedCubes ∧
    (preBoom s).bucketPosition = s.bucketPosition ∧
    (preBoom s).bucketQuaternion = s.bucketQuaternion ∧
    (preBoom s).boomMotorSpeed = s.boomMotorSpeed ∧
    (preBoom s).boomAngularVelocity = s.boomAngularVelocity ∧
    (preBoom s).bucketMotorSpeed = s.bucketMotorSpeed ∧
    (preBoom s).bucketAngularVelocity = s.bucketAngularVelocity ∧
    (preBoom s).stickMotorSpeed = s.stickMotorSpeed ∧
    (preBoom s).stepLog = s.stepLog := by
  unfold preBoom
  simp [turretMotor_frame, clampBase_frame, steer_frame, ramp_frame, idleReset_frame]

/-- The prefix before the angle limiter leaves the keys, the cube lists, the
bucket pose and the step log alone. -/
theorem preLimiter_frame (s : State) :
    (preLimiter s).keys = s.keys ∧
    (preLimiter s).cubes = s.cubes ∧
    (preLimiter s).attachedCubes = s.attachedCubes ∧
    (preLimiter s).bucketPosition = s.bucketPosition ∧
    (preLimiter s).bucketQuaternion = s.bucketQuaternion ∧
    (preLimiter s).stepLog = s.stepLog := by
  unfold preLimiter
  simp [bucketMotor_frame, stickMotor_frame, boomMotor_frame, preBoom_frame]

/-- Tick function `update` leaves the keys, the bucket pose and the step log alone. -/
theorem update_frame (s : State) :
    (update s).keys = s.keys ∧
    (update s).bucketPosition = s.bucketPosition ∧
    (update s).bucketQuaternion = s.bucketQuaternion ∧
    (update s).stepLog = s.stepLog := by
  rw [update_factor]
  simp [visualSync_frame, carry_frame, digPhase_frame, angleLimiter_frame,
    preLimiter_frame]

/-- Zero angular velocity passes through the X-limiter unchanged. -/
theorem clampAroundX_zero (cq pq : Quat) (mn mx : ℝ) :
    clampHingeAngleAroundX cq pq mn mx Vec3.zero = Vec3.zero := by
  unfold clampHingeAngleAroundX
  simp

/-- Zero angular velocity passes through the Y-limiter unchanged. -/
theorem clampAroundY_zero (cq pq : Quat) (mn mx : ℝ) :
    clampHingeAngleAroundY cq pq mn mx Vec3.zero = Vec3.zero := by
  unfold clampHingeAngleAroundY
  simp

/-- The forward-velocity scalar a tick of `update` leaves behind is decided
entirely by the idle-reset and ramp blocks. -/
theorem update_forwardVelocity (s : State) :
    (update s).forwardVelocity =
      (rampForwardVelocity (idleReset s)).forwardVelocity := by
  unfold update
  simp [visualSync_frame, carry_frame, digPhase_frame, angleLimiter_frame,
    bucketMotor_frame, stickMotor_frame, boomMotor_frame, turretMotor_frame,
    clampBase_frame, steer_frame]

/-- With `w` held, `idleReset` changes nothing. -/
theorem idleReset_of_w (s : State) (h : s.keys.w = true) : idleReset s = s := by
  simp [idleReset, h]

/-- With `s` held, `idleReset` changes nothing. -/
theorem idleReset_of_s (s : State) (h : s.keys.s = true) : idleReset s = s := by
  simp [idleReset, h]

/-- With `a` or `d` held, `idleReset` changes nothing. -/
theorem idleReset_of_ad (s : State) (h : s.keys.a = true ∨ s.keys.d = true) :
    idleReset s = s := by
  rcases h with h | h <;> simp [idleReset, h]

/-- With no drive key held, `idleReset` zeroes the forward-velocity scalar
(and the keys are untouched). -/
theorem idleReset_of_none (s : State) (hw : s.keys.w = false)
    (hs : s.keys.s = false) (ha : s.keys.a = false) (hd : s.keys.d = false) :
    (idleReset s).forwardVelocity = 0 ∧ (idleReset s).keys = s.keys := by
  simp [idleReset, hw, hs, ha, hd]

end Exc

open Exc in
/-- C7 counterexample: an excavator rolling at `forwardVelocity = 1` with no
key held: `update` leaves `forwardVelocity = 0` — the idle-reset block at the
top of `update` zeroes the scalar before the damping branch multiplies it —
whereas the claimed `×0.95` decay would leave `0.95 ≠ 0`. -/
theorem C7_velocity_decay_counterexample :
    (Exc.update { baseExcState with forwardVelocity := 1 }).forwardVelocity = 0 ∧
    (1 : ℝ) * Exc.damping ≠ 0 := by
  constructor
  · rw [Exc.update_forwardVelocity]
    norm_num [Exc.idleReset, Exc.rampForwardVelocity, baseExcState, Exc.Keys.none]
  · norm_num [Exc.damping]

/-- C7 amended: while `w`/`s` (excavator) or `ArrowUp`/`ArrowDown` (dump
truck) is held, `forwardVelocity` ramps by `±acceleration` per tick and
saturates at `±maxVelocity`.  With no drive key held: the excavator
multiplies by `0.95` only when a steer key (`a`/`d`) is still held, and with
no `w`/`s`/`a`/`d` key at all it resets `forwardVelocity` discontinuously to
`0` at the top of the tick; the dump truck multiplies by `0.95` and snaps the
result to exactly `0` once its magnitude falls below `0.1`. -/
theorem C7_velocity_ramp_amended :
    (∀ s : Exc.State,
      (s.keys.w = true →
        (Exc.update s).forwardVelocity =
          min (s.forwardVelocity + Exc.acceleration) Exc.maxVelocity) ∧
      (s.keys.w = false → s.keys.s = true →
        (Exc.update s).forwardVelocity =
          max (s.forwardVelocity - Exc.acceleration) (-Exc.maxVelocity)) ∧
      (s.keys.w = false → s.keys.s = false → (s.keys.a = true ∨ s.keys.d = true) →
        (Exc.update s).forwardVelocity = s.forwardVelocity * Exc.damping) ∧
      (s.keys.w = false → s.keys.s = false → s.keys.a = false → s.keys.d = false →
        (Exc.update s).forwardVelocity = 0)) ∧
    (∀ t : Truck.State,
      (t.keys.up = true →
        (Truck.update t).forwardVelocity =
          min (t.forwardVelocity + Truck.acceleration) Truck.maxVelocity) ∧
      (t.keys.up = false → t.keys.down = true →
        (Truck.update t).forwardVelocity =
          max (t.forwardVelocity - Truck.acceleration) (-Truck.maxVelocity)) ∧
      (t.keys.up = false → t.keys.down = false →
        (Truck.update t).forwardVelocity =
          if |t.forwardVelocity * Truck.damping| < 0.1 then 0
          else t.forwardVelocity * Truck.damping)) := by
  constructor
  · intro s
    refine ⟨fun hw => ?_, fun hw hs => ?_, fun hw hs had => ?_,
      fun hw hs ha hd => ?_⟩
    · rw [Exc.update_forwardVelocity, Exc.idleReset_of_w s hw]
      simp [Exc.rampForwardVelocity, hw]
    · rw [Exc.update_forwardVelocity, Exc.idleReset_of_s s hs]
      simp [Exc.rampForwardVelocity, hw, hs]
    · rw [Exc.update_forwardVelocity, Exc.idleReset_of_ad s had]
      simp [Exc.rampForwardVelocity, hw, hs]
    · obtain ⟨hfv, hk⟩ := Exc.idleReset_of_none s hw hs ha hd
      rw [Exc.update_forwardVelocity]
      simp [Exc.rampForwardVelocity, hk, hw, hs, hfv]
  · intro t
    refine ⟨fun hup => ?_, fun hup hdn => ?_, fun hup hdn => ?_⟩
    · simp [Truck.update, hup]
    · simp [Truck.update, hup, hdn]
    · simp [Truck.update, hup, hdn]

/-- C7 amended witness: from `forwardVelocity = 1` with the forward key held,
one tick ramps both vehicles to `1 + 0.8 = 1.8`. -/
theorem C7_velocity_ramp_witness :
    (Exc.update c7ExcDriveState).forwardVelocity = 1.8 ∧
    (Truck.update c7TruckDriveState).forwardVelocity = 1.8 := by
  constructor
  · have h := (C7_velocity_ramp_amended.1 c7ExcDriveState).1 rfl
    rw [h]
    norm_num [c7ExcDriveState, baseExcState, Exc.acceleration, Exc.maxVelocity, min_def]
  · have h := (C7_velocity_ramp_amended.2 c7TruckDriveState).1 rfl
    rw [h]
    norm_num [c7TruckDriveState, baseTruckState, Truck.acceleration, Truck.maxVelocity,
      min_def]

open Exc in
/-- C10: in the open-loop excavator variant, on every tick where neither `r`
nor `f` is held, `update` sets the boom motor speed to `0` and zeroes the
boom body's entire angular velocity vector; likewise for the bucket when
neither `y` nor `h` is held (the later angle-limiter pass maps an
already-zero angular velocity to zero). -/
theorem C10_idle_joint_freeze (s : Exc.State) :
    (s.keys.r = false → s.keys.f = false →
      (Exc.update s).boomMotorSpeed = 0 ∧
      (Exc.update s).boomAngularVelocity = Vec3.zero) ∧
    (s.keys.y = false → s.keys.h = false →
      (Exc.update s).bucketMotorSpeed = 0 ∧
      (Exc.update s).bucketAngularVelocity = Vec3.zero) := by
  constructor
  · intro hr hf
    have hb : (boomMotor (preBoom s)).boomMotorSpeed = 0 ∧
        (boomMotor (preBoom s)).boomAngularVelocity = Vec3.zero := by
      have hk := (preBoom_frame s).1
      simp [boomMotor, hk, hr, hf]
    have hL : (preLimiter s).boomMotorSpeed = 0 ∧
        (preLimiter s).boomAngularVelocity = Vec3.zero := by
      unfold preLimiter
      simp [bucketMotor_frame, stickMotor_frame, hb.1, hb.2]
    rw [update_factor]
    constructor
    · simp [visualSync_frame, carry_frame, digPhase_frame, angleLimiter_frame, hL.1]
    · simp [visualSync_frame, carry_frame, digPhase_frame, angleLimiter, hL.2,
        clampAroundX_zero]
  · intro hy hh
    have hk : (stickMotor (boomMotor (preBoom s))).keys = s.keys := by
      simp [stickMotor_frame, boomMotor_frame, preBoom_frame]
    have hb : (preLimiter s).bucketMotorSpeed = 0 ∧
        (preLimiter s).bucketAngularVelocity = Vec3.zero := by
      unfold preLimiter
      simp [bucketMotor, hk, hy, hh]
    rw [update_factor]
    constructor
    · simp [visualSync_frame, carry_frame, digPhase_frame, angleLimiter_frame, hb.1]
    · simp [visualSync_frame, carry_frame, digPhase_frame, angleLimiter, hb.2,
        clampAroundX_zero]

/-- C10 witness: with no key held at all, one tick of the open-loop excavator
leaves both the boom and bucket motors commanded to `0` and both bodies'
angular velocities zeroed. -/
theorem C10_idle_joint_freeze_witness :
    (Exc.update baseExcState).boomMotorSpeed = 0 ∧
    (Exc.update baseExcState).boomAngularVelocity = Vec3.zero ∧
    (Exc.update baseExcState).bucketMotorSpeed = 0 ∧
    (Exc.update baseExcState).bucketAngularVelocity = Vec3.zero := by
  obtain ⟨h1, h2⟩ := (C10_idle_joint_freeze baseExcState).1 rfl rfl
  obtain ⟨h3, h4⟩ := (C10_idle_joint_freeze baseExcState).2 rfl rfl
  exact ⟨h1, h2, h3, h4⟩

namespace Exc

/-- On a tick without `space`, `update` re-poses the attached cubes through
the carry loop and leaves the free list alone. -/
theorem update_lists_no_dig (s : State) (hsp : s.keys.space = false) :
    (update s).attachedCubes =
      s.attachedCubes.map (carryCube s.bucketPosition s.bucketQuaternion) ∧
    (update s).cubes = s.cubes := by
  rw [update_factor]
  have hdig : digPhase (angleLimiter (preLimiter s)) = angleLimiter (preLimiter s) := by
    unfold digPhase
    have h : (angleLimiter (preLimiter s)).keys.space = false := by
      simp [angleLimiter_frame, preLimiter_frame, hsp]
    simp [h]
  rw [hdig]
  constructor
  · simp [visualSync_frame, carryPhase, angleLimiter_frame, preLimiter_frame]
  · simp [visualSync_frame, carry_frame, angleLimiter_frame, preLimiter_frame]

/-- On a tick with `space`, `update` routes the cube lists through `dig`
(evaluated on the angle-limited state, whose keys, cube lists and bucket pose
are those of the tick's start) and then the carry loop. -/
theorem update_dig_transport (s : State) (hsp : s.keys.space = true) :
    (update s).cubes = (dig (angleLimiter (preLimiter s))).cubes ∧
    (update s).attachedCubes =
      (dig (angleLimiter (preLimiter s))).attachedCubes.map
        (carryCube s.bucketPosition s.bucketQuaternion) := by
  rw [update_factor]
  have hdig : digPhase (angleLimiter (preLimiter s)) = dig (angleLimiter (preLimiter s)) := by
    unfold digPhase
    have h : (angleLimiter (preLimiter s)).keys.space = true := by
      simp [angleLimiter_frame, preLimiter_frame, hsp]
    simp [h]
  rw [hdig]
  constructor
  · simp [visualSync_frame, carry_frame]
  · simp [visualSync_frame, carryPhase, dig_frame, angleLimiter_frame, preLimiter_frame]

/-- With 20 cubes already attached, the pickup scan declines every cube. -/
theorem digScanRev_at_cap (bp : Vec3) (l : List Cube) :
    digScanRev bp 20 l = Option.none := by
  induction l with
  | nil => rfl
  | cons c rest ih =>
    unfold digScanRev
    rw [if_neg (by simp), ih]

/-- A successful pickup scan implies the cap had room. -/
theorem digScanRev_some_lt (bp : Vec3) (n : ℕ) (l : List Cube)
    (pr : List Cube × Cube) (h : digScanRev bp n l = Option.some pr) : n < 20 := by
  induction l generalizing pr with
  | nil => simp [digScanRev] at h
  | cons c rest ih =>
    unfold digScanRev at h
    split_ifs at h with hc
    · exact hc.2
    · rcases hrec : digScanRev bp n rest with _ | pr2
      · rw [hrec] at h
        simp at h
      · exact ih pr2 hrec

/-- With `r` held and a nonempty attached list, `dig` empties the attached
list. -/
theorem dig_release (s : State) (hr : s.keys.r = true)
    (hne : s.attachedCubes ≠ []) : (dig s).attachedCubes = [] := by
  unfold dig
  rcases h : digScanRev s.bucketPosition s.attachedCubes.length s.cubes.reverse with
    _ | ⟨rest, c⟩ <;> simp only [h]
  · rw [if_pos ⟨by simp [hr], List.length_pos.mpr hne⟩]
  · rw [if_pos ⟨by simp [hr], by simp⟩]

/-- Routine `dig` keeps the attached count within the cap. -/
theorem dig_attached_le (s : State) (h : s.attachedCubes.length ≤ 20) :
    (dig s).attachedCubes.length ≤ 20 := by
  unfold dig
  rcases hscan : digScanRev s.bucketPosition s.attachedCubes.length s.cubes.reverse with
    _ | ⟨rest, c⟩ <;> simp only [hscan] <;> split_ifs <;> simp [h]
  have := digScanRev_some_lt _ _ _ _ hscan
  omega

/-- Tick function `update` keeps the attached count within the cap. -/
theorem update_attached_le (s : State) (h : s.attachedCubes.length ≤ 20) :
    (update s).attachedCubes.length ≤ 20 := by
  by_cases hsp : s.keys.space = true
  · rw [(update_dig_transport s hsp).2, List.length_map]
    apply dig_attached_le
    simp [angleLimiter_frame, preLimiter_frame, h]
  · rw [(update_lists_no_dig s (by simpa using hsp)).1, List.length_map]
    exact h

/-- With `r` held, `update` commands the boom motor to `-armSpeed`. -/
theorem update_boomMotor_of_r (s : State) (hr : s.keys.r = true) :
    (update s).boomMotorSpeed = -armSpeed := by
  rw [update_factor]
  have hk : (preBoom s).keys.r = true := by
    simp [preBoom_frame, hr]
  have hb : (boomMotor (preBoom s)).boomMotorSpeed = -armSpeed := by
    simp [boomMotor, hk]
  simp [visualSync_frame, carry_frame, digPhase_frame, angleLimiter_frame,
    preLimiter, bucketMotor_frame, stickMotor_frame, hb]

end Exc

open Exc in
/-- C6 counterexample: on a pickup tick at the cap of 20 with `r` also held,
the release branch of `dig` empties the attached list — the tick does change
the attached list, contradicting the claim that at the cap a pickup tick
changes neither list. -/
theorem C6_capacity_counterexample :
    c6State.attachedCubes.length = 20 ∧
    (Exc.update c6State).attachedCubes = [] := by
  constructor
  · simp [c6State, baseExcState]
  · rw [(update_dig_transport c6State rfl).2, dig_release]
    · simp
    · simp [angleLimiter_frame, preLimiter_frame, c6State, Exc.Keys.none]
    · simp [angleLimiter_frame, preLimiter_frame, c6State, baseExcState]

open Exc in
/-- C6 amended: the attached-object count never exceeds the cap of 20 across
any number of ticks (whatever the environment does to the rest of the state
between ticks, it does not edit the cube lists); and once the cap is reached,
a pickup call attaches nothing and — provided the release key `r` is not held
— changes neither the free list nor the attached list, signalling no error;
with `r` held, the release branch still empties the attached list on such a
tick. -/
theorem C6_capacity_bound (s : Exc.State) :
    (∀ f : ℕ → Exc.State → Exc.State,
      (∀ i t, (f i t).attachedCubes = t.attachedCubes) →
      s.attachedCubes.length ≤ 20 →
      ∀ n, (runTicks f n s).attachedCubes.length ≤ 20) ∧
    (s.keys.r = false → s.attachedCubes.length = 20 → Exc.dig s = s) := by
  constructor
  · intro f hf h n
    induction n with
    | zero => exact h
    | succ n ih =>
      show (Exc.update (f n (runTicks f n s))).attachedCubes.length ≤ 20
      apply update_attached_le
      rw [hf n (runTicks f n s)]
      exact ih
  · intro hr h20
    unfold dig
    rw [h20, digScanRev_at_cap]
    simp only []
    rw [if_neg]
    simp [hr]

open Exc in
/-- C6 witness: three undisturbed ticks from the empty rig stay within the
cap, and at the cap without `r` the dig call is the identity. -/
theorem C6_capacity_bound_witness :
    (runTicks (fun _ t => t) 3 baseExcState).attachedCubes.length ≤ 20 ∧
    Exc.dig c6CapState = c6CapState := by
  constructor
  · exact (C6_capacity_bound baseExcState).1 _ (fun i t => rfl)
      (by simp [baseExcState]) 3
  · exact (C6_capacity_bound c6CapState).2 rfl
      (by simp [c6CapState, baseExcState])

open Exc in
/-- C8 counterexample: on a frame whose input holds `r` (boom at
`-armSpeed`), the frame's physics step consumes the motor commands as they
stood before the frame's update — here all `0` — while the command computed
from this frame's input (`-armSpeed ≠ 0`) is only written afterwards: the
motor commands computed from a tick's input are *not* applied before that
tick's physics step. -/
theorem C8_order_counterexample :
    (Exc.animateTick c8State).stepLog = [(0, 0, 0, 0)] ∧
    (Exc.animateTick c8State).boomMotorSpeed = -Exc.armSpeed ∧
    -Exc.armSpeed ≠ (0 : ℝ) := by
  refine ⟨?_, ?_, by norm_num [Exc.armSpeed]⟩
  · unfold Exc.animateTick
    rw [(Exc.update_frame _).2.2.2]
    simp [Exc.worldStep, c8State, baseExcState]
  · unfold Exc.animateTick
    apply update_boomMotor_of_r
    simp [Exc.worldStep_frame, c8State, Exc.Keys.none]

open Exc in
/-- C8 amended: within every frame the physics world advances by one fixed
`1/60` step *first*, consuming the motor commands left by the previous
frame's update; the per-vehicle update (input read, locomotion forces, joint
motor commands, angle-limiter pass, end-effector carry updates, visual sync,
in that source order) runs after the step, so the motor commands computed
from a frame's input are consumed by the *next* frame's physics step. -/
theorem C8_order_amended (s : Exc.State) :
    (Exc.animateTick s).stepLog = s.stepLog ++
      [(s.turretMotorSpeed, s.boomMotorSpeed, s.stickMotorSpeed, s.bucketMotorSpeed)] ∧
    (Exc.animateTick (Exc.animateTick s)).stepLog = s.stepLog ++
      [(s.turretMotorSpeed, s.boomMotorSpeed, s.stickMotorSpeed, s.bucketMotorSpeed),
       ((Exc.animateTick s).turretMotorSpeed, (Exc.animateTick s).boomMotorSpeed,
        (Exc.animateTick s).stickMotorSpeed, (Exc.animateTick s).bucketMotorSpeed)] := by
  have h1 : ∀ t : Exc.State, (Exc.animateTick t).stepLog = t.stepLog ++
      [(t.turretMotorSpeed, t.boomMotorSpeed, t.stickMotorSpeed, t.bucketMotorSpeed)] := by
    intro t
    unfold Exc.animateTick
    rw [(Exc.update_frame _).2.2.2]
    simp [Exc.worldStep]
  rw [h1 (Exc.animateTick s), h1 s]
  simp

end HeavyMachinery
